import Mathlib

/-!
Shallow embedding of the currency-converter proxy service (src/server.js).

The service is a single Express app with two API routes and a static-file
middleware.  We model:
  * the upstream fetch result (transport error, or an HTTP response whose
    JSON body either parses to a payload or fails to parse),
  * the `/api/rates/:baseCurrency` handler as a pure function of the
    configured API key, the route parameter, the upstream result and the
    current time (used only for the `date` fallback),
  * the `/api/health` handler,
  * the request dispatcher (static middleware, then the two routes, then
    the 404 handler),
  * the startup log emitted by the `app.listen` callback.

JavaScript truthiness of the optional string values (`process.env` entries,
optional JSON fields) is modelled by `strFalsy` / `jsOrElse`: an absent
value (`none`) and the empty string are both falsy, exactly as `!x` and
`x || d` treat them in the source.
-/

namespace CurrencyProxy

/-- Truthiness of an optional string in JavaScript: `!x` is true exactly
when `x` is `undefined` (here `none`) or the empty string. -/
def strFalsy : Option String → Bool
  | none => true
  | some s => s = ""

/-- The JavaScript idiom `x || d` for an optional string `x`: the value of
`x` unless it is absent or empty, in which case the default `d`. -/
def jsOrElse (o : Option String) (d : String) : String :=
  match o with
  | none => d
  | some s => if s = "" then d else s

/-- The JSON payload shape of the upstream provider
(`{result?, "error-type"?, base_code?, time_last_update_utc?, rates?}`).
`errorType` stands for the hyphenated JSON key `"error-type"`.  `rates` is
the mapping from currency code to rate, `none` when the field is absent. -/
structure UpstreamPayload where
  result : Option String
  errorType : Option String
  base_code : Option String
  time_last_update_utc : Option String
  rates : Option (List (String × Rat))
  deriving DecidableEq, Repr

deriving instance DecidableEq for Except

/-- An HTTP response from the upstream provider: status code, status text,
and the result of `response.json()` (which may fail to parse). -/
structure UpstreamHttpResponse where
  status : Nat
  statusText : String
  jsonBody : Except String UpstreamPayload
  deriving DecidableEq, Repr

/-- The outcome of the outbound `fetch`: either the transport call itself
throws (network error, timeout), or an HTTP response is obtained. -/
inductive UpstreamResult where
  | transportError (message : String)
  | response (r : UpstreamHttpResponse)
  deriving DecidableEq, Repr

/-- The JSON bodies the service sends to its caller: a successful
`RateResponse` (`success:true`), the uniform `ErrorResponse`
(`success:false`), the health-check body (`success:true`), or a static
asset served by the static-file middleware. -/
inductive ApiBody where
  | rateResponse (base : String) (date : String) (rates : List (String × Rat))
  | errorResponse (error : String)
  | healthResponse (message : String) (timestamp : String)
  | staticAsset (path : String)
  deriving DecidableEq, Repr

/-- Whether a response body carries `success:true`. -/
def bodySuccess : ApiBody → Bool
  | .rateResponse _ _ _ => true
  | .healthResponse _ _ => true
  | .staticAsset _ => true
  | .errorResponse _ => false

/-- The request the service makes to the upstream provider. -/
structure OutboundRequest where
  url : String
  method : String
  headers : List (String × String)
  deriving DecidableEq, Repr

/-- An HTTP response of the service: status code and JSON body. -/
structure HttpResponse where
  status : Nat
  body : ApiBody
  deriving DecidableEq, Repr

/-- Everything observable about one request handled by the service: the
HTTP response sent, the outbound upstream request made (if any), the number
of outbound upstream calls, and the diagnostic log lines emitted. -/
structure HandlerOutcome where
  response : HttpResponse
  request : Option OutboundRequest
  fetchCount : Nat
  logs : List String
  deriving DecidableEq, Repr

/-- The validation-error message of the rates handler. -/
def invalidCodeMsg : String :=
  "Invalid base currency code. Must be a 3-letter code (e.g., USD, EUR)"

/-- The upstream URL built by the handler:
`https://open.er-api.com/v6/latest/${baseCurrency}`.  Note it is a function
of the base currency alone; the API key does not occur in it. -/
def apiUrlFor (baseCurrency : String) : String :=
  "https://open.er-api.com/v6/latest/" ++ baseCurrency

/-- The outbound request made by the handler: GET to `apiUrlFor` with the
single header `Accept: application/json`. -/
def outboundFor (baseCurrency : String) : OutboundRequest :=
  { url := apiUrlFor baseCurrency
    method := "GET"
    headers := [("Accept", "application/json")] }

/-- The rates handler after the input-validation early return: API-key
check, fetch, upstream-status check, JSON parse, application-level error
check, rates-presence check, and the success reshape, exactly as in
src/server.js lines 55-135.  The `catch` block of the source wraps the
whole handler; the two ways an exception can arise in it are a transport
failure of `fetch` and a parse failure of `response.json()`, both of which
produce `500 Internal server error: <message>` here. -/
def ratesAfterValidation (apiKey : Option String) (baseCurrency : String)
    (upstream : UpstreamResult) (now : String) : HandlerOutcome :=
  if strFalsy apiKey then
    { response := ⟨500, .errorResponse "Server configuration error: API key not set"⟩
      request := none
      fetchCount := 0
      logs := ["API key not found in environment variables"] }
  else
    let fetchLog := "Fetching exchange rates for base currency: " ++ baseCurrency
    match upstream with
    | .transportError msg =>
        { response := ⟨500, .errorResponse ("Internal server error: " ++ msg)⟩
          request := some (outboundFor baseCurrency)
          fetchCount := 1
          logs := [fetchLog, "Error in /api/rates endpoint: " ++ msg] }
    | .response r =>
        if 200 ≤ r.status ∧ r.status ≤ 299 then
          match r.jsonBody with
          | .error msg =>
              { response := ⟨500, .errorResponse ("Internal server error: " ++ msg)⟩
                request := some (outboundFor baseCurrency)
                fetchCount := 1
                logs := [fetchLog, "Error in /api/rates endpoint: " ++ msg] }
          | .ok data =>
              if data.result = some "error" then
                { response := ⟨400, .errorResponse (jsOrElse data.errorType "Unknown API error")⟩
                  request := some (outboundFor baseCurrency)
                  fetchCount := 1
                  logs := [fetchLog, "API returned error"] }
              else
                match data.rates with
                | none =>
                    { response := ⟨500, .errorResponse "Invalid response from exchange rate API"⟩
                      request := some (outboundFor baseCurrency)
                      fetchCount := 1
                      logs := [fetchLog, "Invalid API response: rates not found"] }
                | some rs =>
                    { response := ⟨200, .rateResponse (jsOrElse data.base_code baseCurrency)
                                         (jsOrElse data.time_last_update_utc now) rs⟩
                      request := some (outboundFor baseCurrency)
                      fetchCount := 1
                      logs := [fetchLog] }
        else
          { response := ⟨r.status, .errorResponse ("Failed to fetch exchange rates: " ++ r.statusText)⟩
            request := some (outboundFor baseCurrency)
            fetchCount := 1
            logs := [fetchLog, "API Error: " ++ toString r.status] }

/-- The `/api/rates/:baseCurrency` handler.  The source first validates the
route parameter (`!baseCurrency || typeof baseCurrency !== 'string' ||
baseCurrency.length !== 3`, the `typeof` test being vacuous for a route
parameter, which is always a string) and returns 400 without touching the
upstream; otherwise it continues with `ratesAfterValidation`. -/
def ratesHandler (apiKey : Option String) (baseCurrency : String)
    (upstream : UpstreamResult) (now : String) : HandlerOutcome :=
  if baseCurrency = "" ∨ baseCurrency.length ≠ 3 then
    { response := ⟨400, .errorResponse invalidCodeMsg⟩
      request := none
      fetchCount := 0
      logs := [] }
  else
    ratesAfterValidation apiKey baseCurrency upstream now

/-- The `/api/health` handler: unconditionally 200 with
`{success:true, message, timestamp}` and no outbound call. -/
def healthHandler (now : String) : HandlerOutcome :=
  { response := ⟨200, .healthResponse "Currency converter API is running" now⟩
    request := none
    fetchCount := 0
    logs := [] }

/-- Drop the prefix from a list if it matches, character by character;
`none` when it does not match. -/
def dropPrefixChars : List Char → List Char → Option (List Char)
  | [], rest => some rest
  | _ :: _, [] => none
  | p :: ps, c :: cs => if c = p then dropPrefixChars ps cs else none

/-- Express route matching for `/api/rates/:baseCurrency`: the path must
extend `/api/rates/` by exactly one non-empty segment (no further `/`);
that segment is the `baseCurrency` route parameter. -/
def matchRatesRoute (path : String) : Option String :=
  match dropPrefixChars "/api/rates/".toList path.toList with
  | none => none
  | some rest =>
      if rest = [] ∨ rest.contains '/' then none
      else some (String.mk rest)

/-- The request dispatcher, in the middleware order of src/server.js: the
static-file middleware first (modelled by membership in the list of
available static assets), then the two API routes, then the 404 handler
for everything unmatched. -/
def dispatch (staticFiles : List String) (apiKey : Option String)
    (path : String) (upstream : UpstreamResult) (now : String) : HandlerOutcome :=
  if path ∈ staticFiles then
    { response := ⟨200, .staticAsset path⟩
      request := none
      fetchCount := 0
      logs := [] }
  else
    match matchRatesRoute path with
    | some b => ratesHandler apiKey b upstream now
    | none =>
        if path = "/api/health" then healthHandler now
        else
          { response := ⟨404, .errorResponse "Endpoint not found"⟩
            request := none
            fetchCount := 0
            logs := [] }

/-- The API-key line of the `app.listen` startup log: absence of the key is
reported as a warning; the server starts either way. -/
def startupKeyLogs (apiKey : Option String) : List String :=
  if strFalsy apiKey then
    ["⚠ WARNING: API key not found in .env file",
     "  The API may work without a key, or you may need to set EXCHANGE_RATE_API_KEY"]
  else
    ["✓ API key is configured"]

/-- Erase the `date` field of a successful rate response; used to state
determinism of the rates handler up to the time fallback. -/
def stripDate : ApiBody → ApiBody
  | .rateResponse base _ rates => .rateResponse base "" rates
  | b => b

/-- The example upstream payload of the spec:
`{base_code:"USD", rates:{"EUR":0.9}}` (no `result`, no `error-type`, no
`time_last_update_utc`). -/
def usdPayload : UpstreamPayload :=
  { result := none
    errorType := none
    base_code := some "USD"
    time_last_update_utc := none
    rates := some [("EUR", (9 : Rat) / 10)] }

/-- An upstream that answers HTTP 200 OK with `usdPayload`. -/
def usdOkUpstream : UpstreamResult :=
  .response { status := 200, statusText := "OK", jsonBody := .ok usdPayload }

/-- Validation passed: for a 3-character route parameter the rates handler
continues past the input check into `ratesAfterValidation`. -/
theorem rates_valid_pass (apiKey : Option String) (b : String) (u : UpstreamResult)
    (now : String) (hlen : b.length = 3) :
    ratesHandler apiKey b u now = ratesAfterValidation apiKey b u now := by
  have hne : ¬(b = "" ∨ b.length ≠ 3) := by
    rintro (h1 | h2)
    · rw [h1] at hlen
      simp at hlen
    · exact h2 hlen
  unfold ratesHandler
  rw [if_neg hne]

/-- C1 as stated is false: it quantifies over every configuration, but in
the configuration where the API key is absent, `rates("USD")` against an
upstream that would answer HTTP 200 with `{base_code:"USD",
rates:{"EUR":0.9}}` returns the 500 configuration error, not
`{success:true, ...}` — the upstream is not even called. -/
theorem c1_counterexample :
    (ratesHandler none "USD" usdOkUpstream "2026-01-01T00:00:00.000Z").response =
      ⟨500, .errorResponse "Server configuration error: API key not set"⟩ ∧
    (ratesHandler none "USD" usdOkUpstream "2026-01-01T00:00:00.000Z").fetchCount = 0 := by
  constructor <;> rfl

/-- C1 (amended): for every configuration whose API key is present and
non-empty, given the upstream returns HTTP 200 with `{base_code:"USD",
rates:{"EUR":0.9}}`, `rates("USD")` returns `{success:true, base:"USD",
rates:{"EUR":0.9}, date: <non-empty>}`; in general, on success the
response's `base` is the upstream's `base_code` falling back to the input
code, `date` is the upstream's `time_last_update_utc` falling back to the
current time, and `rates` is passed through unmodified. -/
theorem c1_success_reshape (apiKey : Option String) (baseCurrency now : String)
    (r : UpstreamHttpResponse) (data : UpstreamPayload) (rs : List (String × Rat))
    (hkey : strFalsy apiKey = false)
    (hlen : baseCurrency.length = 3)
    (hok : 200 ≤ r.status ∧ r.status ≤ 299)
    (hjson : r.jsonBody = .ok data)
    (hres : data.result ≠ some "error")
    (hrates : data.rates = some rs)
    (hnow : now ≠ "") :
    (ratesHandler apiKey baseCurrency (.response r) now).response =
      ⟨200, .rateResponse (jsOrElse data.base_code baseCurrency)
              (jsOrElse data.time_last_update_utc now) rs⟩ ∧
    (ratesHandler apiKey "USD" usdOkUpstream now).response =
      ⟨200, .rateResponse "USD" now [("EUR", (9 : Rat) / 10)]⟩ ∧
    now ≠ "" := by
  refine ⟨?_, ?_, hnow⟩
  · rw [rates_valid_pass apiKey baseCurrency (.response r) now hlen]
    simp [ratesAfterValidation, hkey, hok, hjson, hres, hrates]
  · rw [rates_valid_pass apiKey "USD" usdOkUpstream now (by rfl)]
    simp [ratesAfterValidation, usdOkUpstream, usdPayload, hkey, jsOrElse]

/-- Witness for `c1_success_reshape` at a concrete configuration, upstream
response and time. -/
theorem c1_success_reshape_witness :
    (ratesHandler (some "test-key") "USD" usdOkUpstream "2026-01-01T00:00:00.000Z").response =
      ⟨200, .rateResponse "USD" "2026-01-01T00:00:00.000Z" [("EUR", (9 : Rat) / 10)]⟩ :=
  (c1_success_reshape (some "test-key") "USD" "2026-01-01T00:00:00.000Z"
      { status := 200, statusText := "OK", jsonBody := .ok usdPayload }
      usdPayload [("EUR", (9 : Rat) / 10)]
      (by rfl) (by rfl) (by constructor <;> decide) (by rfl)
      (by simp [usdPayload]) (by rfl) (by simp)).2.1

/-- C2: for every input `baseCurrency` that is not a string of exactly 3
characters, the rates handler returns HTTP 400 with `{success:false,
error: "Invalid base currency code. Must be a 3-letter code (e.g., USD,
EUR)"}` and makes no upstream call (the full outcome records no outbound
request and a fetch count of 0); for every 3-character input, validation
passes and the handler proceeds past validation into the rest of the
operation. -/
theorem c2_validation (apiKey : Option String) (b now : String) (u : UpstreamResult) :
    (b.length ≠ 3 →
      ratesHandler apiKey b u now =
        { response := ⟨400, .errorResponse invalidCodeMsg⟩
          request := none
          fetchCount := 0
          logs := [] }) ∧
    (b.length = 3 →
      ratesHandler apiKey b u now = ratesAfterValidation apiKey b u now) := by
  constructor
  · intro hne
    unfold ratesHandler
    rw [if_pos (Or.inr hne)]
  · intro hlen
    exact rates_valid_pass apiKey b u now hlen

/-- Witness for `c2_validation`: the concrete 4-character input `"USDX"`
is rejected with 400 and no fetch, and the concrete 3-character input
`"USD"` proceeds past validation. -/
theorem c2_validation_witness :
    ratesHandler (some "test-key") "USDX" usdOkUpstream "t" =
      { response := ⟨400, .errorResponse invalidCodeMsg⟩
        request := none
        fetchCount := 0
        logs := [] } ∧
    ratesHandler (some "test-key") "USD" usdOkUpstream "t" =
      ratesAfterValidation (some "test-key") "USD" usdOkUpstream "t" :=
  ⟨(c2_validation (some "test-key") "USDX" "t" usdOkUpstream).1 (by decide),
   (c2_validation (some "test-key") "USD" "t" usdOkUpstream).2 (by rfl)⟩

/-- C3 as stated is false in its claim that, with the reference upstream
(which requires no key), absence of the API key is a degraded-but-running
state rather than a per-request failure: with the key absent, a valid
request `rates("USD")` fails with the 500 configuration error even though
the upstream would have answered HTTP 200 successfully — the upstream is
never consulted, so its not requiring a key cannot save the request. -/
theorem c3_counterexample :
    ratesHandler none "USD" usdOkUpstream "2026-01-01T00:00:00.000Z" =
      { response := ⟨500, .errorResponse "Server configuration error: API key not set"⟩
        request := none
        fetchCount := 0
        logs := ["API key not found in environment variables"] } := by
  rfl

/-- C3 (amended): whenever the upstream API key is absent from
configuration (or empty), every rates request with a valid 3-character
code fails with HTTP 500 `{success:false, error: "Server configuration
error: API key not set"}` before any upstream call — regardless of
whether the upstream in use requires a key; absence of the key is never a
startup failure: the health route still answers 200 and the startup log
merely warns about the missing key. -/
theorem c3_key_absent (apiKey : Option String) (b now : String) (u : UpstreamResult)
    (hkey : strFalsy apiKey = true) (hlen : b.length = 3) :
    ratesHandler apiKey b u now =
      { response := ⟨500, .errorResponse "Server configuration error: API key not set"⟩
        request := none
        fetchCount := 0
        logs := ["API key not found in environment variables"] } ∧
    (healthHandler now).response.status = 200 ∧
    startupKeyLogs apiKey =
      ["⚠ WARNING: API key not found in .env file",
       "  The API may work without a key, or you may need to set EXCHANGE_RATE_API_KEY"] := by
  refine ⟨?_, rfl, ?_⟩
  · rw [rates_valid_pass apiKey b u now hlen]
    unfold ratesAfterValidation
    rw [if_pos hkey]
  · unfold startupKeyLogs
    rw [if_pos hkey]

/-- Witness for `c3_key_absent` at the concrete configuration with no key
and the concrete request `"USD"`. -/
theorem c3_key_absent_witness :
    ratesHandler none "USD" usdOkUpstream "t" =
      { response := ⟨500, .errorResponse "Server configuration error: API key not set"⟩
        request := none
        fetchCount := 0
        logs := ["API key not found in environment variables"] } ∧
    (healthHandler "t").response.status = 200 ∧
    startupKeyLogs none =
      ["⚠ WARNING: API key not found in .env file",
       "  The API may work without a key, or you may need to set EXCHANGE_RATE_API_KEY"] :=
  c3_key_absent none "USD" "t" usdOkUpstream (by rfl) (by rfl)

/-- `jsOrElse` yields the default when the optional value is absent or
empty (JavaScript-falsy). -/
theorem jsOrElse_of_falsy (o : Option String) (d : String) (h : strFalsy o = true) :
    jsOrElse o d = d := by
  cases o with
  | none => rfl
  | some s =>
      simp [strFalsy] at h
      simp [jsOrElse, h]

/-- `jsOrElse` yields the value itself when it is present and non-empty. -/
theorem jsOrElse_of_nonempty (s d : String) (h : s ≠ "") :
    jsOrElse (some s) d = s := by
  simp [jsOrElse, h]

/-- C4: for every upstream reply with a non-success HTTP status, the rates
handler returns `success:false` with an error message containing the
upstream's status text (it is `"Failed to fetch exchange rates: "`
followed by the status text), and the HTTP status of the service's
response equals the upstream's status code. -/
theorem c4_upstream_status (apiKey : Option String) (b now : String)
    (r : UpstreamHttpResponse)
    (hkey : strFalsy apiKey = false)
    (hlen : b.length = 3)
    (hnotok : ¬(200 ≤ r.status ∧ r.status ≤ 299)) :
    (ratesHandler apiKey b (.response r) now).response =
      ⟨r.status, .errorResponse ("Failed to fetch exchange rates: " ++ r.statusText)⟩ ∧
    (∃ p, "Failed to fetch exchange rates: " ++ r.statusText = p ++ r.statusText) := by
  constructor
  · rw [rates_valid_pass apiKey b (.response r) now hlen]
    simp [ratesAfterValidation, hkey, hnotok]
  · exact ⟨"Failed to fetch exchange rates: ", rfl⟩

/-- Witness for `c4_upstream_status`: a concrete upstream 404 Not Found is
mirrored as a 404 with the status text in the error message. -/
theorem c4_upstream_status_witness :
    (ratesHandler (some "test-key") "XXX"
        (.response { status := 404, statusText := "Not Found", jsonBody := .error "no body" })
        "t").response =
      ⟨404, .errorResponse "Failed to fetch exchange rates: Not Found"⟩ :=
  (c4_upstream_status (some "test-key") "XXX" "t"
      { status := 404, statusText := "Not Found", jsonBody := .error "no body" }
      (by rfl) (by rfl) (by decide)).1

/-- C5: for every upstream HTTP-200 payload whose `result` field equals
`"error"`, the rates handler returns HTTP 400 with `{success:false,
error: <the payload's error-type string>}`, substituting the fallback
`"Unknown API error"` when the error-type field is absent or falsy; in
particular, for `{result:"error", "error-type":"unknown-code"}` the error
is exactly `"unknown-code"`. -/
theorem c5_upstream_rejected (apiKey : Option String) (b now : String)
    (r : UpstreamHttpResponse) (data : UpstreamPayload)
    (hkey : strFalsy apiKey = false)
    (hlen : b.length = 3)
    (hok : 200 ≤ r.status ∧ r.status ≤ 299)
    (hjson : r.jsonBody = .ok data)
    (hres : data.result = some "error") :
    (ratesHandler apiKey b (.response r) now).response =
      ⟨400, .errorResponse (jsOrElse data.errorType "Unknown API error")⟩ ∧
    (strFalsy data.errorType = true →
      (ratesHandler apiKey b (.response r) now).response =
        ⟨400, .errorResponse "Unknown API error"⟩) ∧
    (data.errorType = some "unknown-code" →
      (ratesHandler apiKey b (.response r) now).response =
        ⟨400, .errorResponse "unknown-code"⟩) := by
  have hmain : (ratesHandler apiKey b (.response r) now).response =
      ⟨400, .errorResponse (jsOrElse data.errorType "Unknown API error")⟩ := by
    rw [rates_valid_pass apiKey b (.response r) now hlen]
    simp [ratesAfterValidation, hkey, hok, hjson, hres]
  refine ⟨hmain, ?_, ?_⟩
  · intro hfalsy
    rw [hmain, jsOrElse_of_falsy data.errorType "Unknown API error" hfalsy]
  · intro hcode
    rw [hmain, hcode, jsOrElse_of_nonempty "unknown-code" "Unknown API error" (by decide)]

/-- The payload `{result:"error", "error-type":"unknown-code"}` of the
spec's example. -/
def unknownCodePayload : UpstreamPayload :=
  { result := some "error"
    errorType := some "unknown-code"
    base_code := none
    time_last_update_utc := none
    rates := none }

/-- Witness for `c5_upstream_rejected` at the concrete payload
`{result:"error", "error-type":"unknown-code"}`. -/
theorem c5_upstream_rejected_witness :
    (ratesHandler (some "test-key") "USD"
        (.response { status := 200, statusText := "OK", jsonBody := .ok unknownCodePayload })
        "t").response =
      ⟨400, .errorResponse "unknown-code"⟩ :=
  (c5_upstream_rejected (some "test-key") "USD" "t"
      { status := 200, statusText := "OK", jsonBody := .ok unknownCodePayload }
      unknownCodePayload
      (by rfl) (by rfl) (by constructor <;> decide) (by rfl) (by rfl)).2.2 (by rfl)

/-- C6 as stated is false: it quantifies over every HTTP-200 payload that
lacks a rates mapping, but the payload `{result:"error"}` — which lacks a
rates mapping — is handled by the application-level-error branch first and
yields HTTP 400 with `"Unknown API error"`, not HTTP 500 with the
malformed-response error. -/
theorem c6_counterexample :
    unknownCodePayload.rates = none ∧
    (ratesHandler (some "test-key") "USD"
        (.response { status := 200, statusText := "OK"
                     jsonBody := .ok { unknownCodePayload with errorType := none } })
        "t").response =
      ⟨400, .errorResponse "Unknown API error"⟩ ∧
    (400 : Nat) ≠ 500 := by
  refine ⟨rfl, rfl, by decide⟩

/-- C6 (amended): for every upstream HTTP-200 payload whose `result` field
is not `"error"` and that lacks a rates mapping, the rates handler fails
with HTTP 500 `{success:false, error: "Invalid response from exchange
rate API"}`. -/
theorem c6_malformed (apiKey : Option String) (b now : String)
    (r : UpstreamHttpResponse) (data : UpstreamPayload)
    (hkey : strFalsy apiKey = false)
    (hlen : b.length = 3)
    (hok : 200 ≤ r.status ∧ r.status ≤ 299)
    (hjson : r.jsonBody = .ok data)
    (hres : data.result ≠ some "error")
    (hrates : data.rates = none) :
    (ratesHandler apiKey b (.response r) now).response =
      ⟨500, .errorResponse "Invalid response from exchange rate API"⟩ := by
  rw [rates_valid_pass apiKey b (.response r) now hlen]
  simp [ratesAfterValidation, hkey, hok, hjson, hres, hrates]

/-- Witness for `c6_malformed` at a concrete HTTP-200 payload with no
`result` field and no `rates` field. -/
theorem c6_malformed_witness :
    (ratesHandler (some "test-key") "USD"
        (.response { status := 200, statusText := "OK"
                     jsonBody := .ok { result := none, errorType := none, base_code := none
                                       time_last_update_utc := none, rates := none } })
        "t").response =
      ⟨500, .errorResponse "Invalid response from exchange rate API"⟩ :=
  c6_malformed (some "test-key") "USD" "t"
    { status := 200, statusText := "OK"
      jsonBody := .ok { result := none, errorType := none, base_code := none
                        time_last_update_utc := none, rates := none } }
    { result := none, errorType := none, base_code := none
      time_last_update_utc := none, rates := none }
    (by rfl) (by rfl) (by constructor <;> decide) (by rfl) (by simp) (by rfl)

/-- C7: the health route answers HTTP 200 with `{success:true, message,
timestamp}` for every configuration (any API key, any list of static
assets not shadowing the route) and regardless of upstream reachability
(any upstream result), and performs zero outbound upstream calls. -/
theorem c7_health (sf : List String) (apiKey : Option String) (u : UpstreamResult)
    (now : String) (hs : "/api/health" ∉ sf) :
    dispatch sf apiKey "/api/health" u now =
      { response := ⟨200, .healthResponse "Currency converter API is running" now⟩
        request := none
        fetchCount := 0
        logs := [] } := by
  unfold dispatch
  rw [if_neg hs]
  have hm : matchRatesRoute "/api/health" = none := by rfl
  rw [hm]
  rfl

/-- Witness for `c7_health` with no static assets, no API key and an
unreachable upstream. -/
theorem c7_health_witness :
    dispatch [] none "/api/health" (.transportError "ECONNREFUSED") "t" =
      { response := ⟨200, .healthResponse "Currency converter API is running" "t"⟩
        request := none
        fetchCount := 0
        logs := [] } :=
  c7_health [] none (.transportError "ECONNREFUSED") "t" (by simp)

/-- C8: every failure is translated at the request boundary into the
uniform `{success:false, error: <string>}` shape and no raw transport
exception reaches the caller: a transport failure of the outbound fetch
yields 500 `Internal server error: <message>`, a JSON-parse failure of the
upstream body (the other exception source inside the handler's try block)
yields the same, every unrecognized route yields 404 `{success:false,
error: "Endpoint not found"}`, and every dispatched response that is not a
success body is an `ErrorResponse`. -/
theorem c8_error_boundary :
    (∀ (apiKey : Option String) (b now msg : String),
        strFalsy apiKey = false → b.length = 3 →
        (ratesHandler apiKey b (.transportError msg) now).response =
          ⟨500, .errorResponse ("Internal server error: " ++ msg)⟩) ∧
    (∀ (apiKey : Option String) (b now msg : String) (r : UpstreamHttpResponse),
        strFalsy apiKey = false → b.length = 3 →
        (200 ≤ r.status ∧ r.status ≤ 299) → r.jsonBody = .error msg →
        (ratesHandler apiKey b (.response r) now).response =
          ⟨500, .errorResponse ("Internal server error: " ++ msg)⟩) ∧
    (∀ (sf : List String) (apiKey : Option String) (path : String)
        (u : UpstreamResult) (now : String),
        path ∉ sf → matchRatesRoute path = none → path ≠ "/api/health" →
        dispatch sf apiKey path u now =
          { response := ⟨404, .errorResponse "Endpoint not found"⟩
            request := none
            fetchCount := 0
            logs := [] }) ∧
    (∀ (sf : List String) (apiKey : Option String) (path : String)
        (u : UpstreamResult) (now : String),
        bodySuccess (dispatch sf apiKey path u now).response.body = false →
        ∃ e, (dispatch sf apiKey path u now).response.body = .errorResponse e) := by
  refine ⟨?_, ?_, ?_, ?_⟩
  · intro apiKey b now msg hkey hlen
    rw [rates_valid_pass apiKey b (.transportError msg) now hlen]
    simp [ratesAfterValidation, hkey]
  · intro apiKey b now msg r hkey hlen hok hjson
    rw [rates_valid_pass apiKey b (.response r) now hlen]
    simp [ratesAfterValidation, hkey, hok, hjson]
  · intro sf apiKey path u now hns hm hp
    unfold dispatch
    rw [if_neg hns, hm]
    simp [hp]
  · intro sf apiKey path u now hfail
    cases hb : (dispatch sf apiKey path u now).response.body with
    | rateResponse base date rates => rw [hb] at hfail; simp [bodySuccess] at hfail
    | errorResponse e => exact ⟨e, rfl⟩
    | healthResponse m ts => rw [hb] at hfail; simp [bodySuccess] at hfail
    | staticAsset p => rw [hb] at hfail; simp [bodySuccess] at hfail

/-- Witness for `c8_error_boundary`: a concrete network failure is
reported as a 500 internal error, and a concrete unknown path gets the
uniform 404 body. -/
theorem c8_error_boundary_witness :
    (ratesHandler (some "test-key") "USD" (.transportError "ECONNREFUSED") "t").response =
      ⟨500, .errorResponse "Internal server error: ECONNREFUSED"⟩ ∧
    dispatch [] (some "test-key") "/nope" usdOkUpstream "t" =
      { response := ⟨404, .errorResponse "Endpoint not found"⟩
        request := none
        fetchCount := 0
        logs := [] } :=
  ⟨c8_error_boundary.1 (some "test-key") "USD" "t" "ECONNREFUSED" (by rfl) (by rfl),
   c8_error_boundary.2.2.1 [] (some "test-key") "/nope" usdOkUpstream "t"
     (by simp) (by rfl) (by decide)⟩

/-- After validation, the rates handler performs at most one upstream
call, in every branch. -/
theorem ratesAfterValidation_fetchCount_le (apiKey : Option String) (b : String)
    (u : UpstreamResult) (now : String) :
    (ratesAfterValidation apiKey b u now).fetchCount ≤ 1 := by
  unfold ratesAfterValidation
  repeat' split
  all_goals simp

/-- C9: every rates request issues at most one outbound upstream call —
no loop, no retry, no backoff: every branch of the handler, and of the
whole dispatcher, terminates the request with a fetch count of at most
one.  (The absence of retained state and of side effects beyond the
response, the single upstream GET and the log lines is embodied by the
handler being a pure function into `HandlerOutcome`, which records exactly
those observables.) -/
theorem c9_single_fetch :
    (∀ (apiKey : Option String) (b : String) (u : UpstreamResult) (now : String),
        (ratesHandler apiKey b u now).fetchCount ≤ 1) ∧
    (∀ (sf : List String) (apiKey : Option String) (path : String)
        (u : UpstreamResult) (now : String),
        (dispatch sf apiKey path u now).fetchCount ≤ 1) := by
  have hrates : ∀ (apiKey : Option String) (b : String) (u : UpstreamResult) (now : String),
      (ratesHandler apiKey b u now).fetchCount ≤ 1 := by
    intro apiKey b u now
    unfold ratesHandler
    split
    · simp
    · exact ratesAfterValidation_fetchCount_le apiKey b u now
  refine ⟨hrates, ?_⟩
  intro sf apiKey path u now
  unfold dispatch
  split
  · simp
  · split
    · exact hrates apiKey _ u now
    · split
      · simp [healthHandler]
      · simp

/-- `jsOrElse` does not depend on the default when the optional value is
present and non-empty. -/
theorem jsOrElse_indep (o : Option String) (d1 d2 : String) (h : strFalsy o = false) :
    jsOrElse o d1 = jsOrElse o d2 := by
  cases o with
  | none => simp [strFalsy] at h
  | some s =>
      simp [strFalsy] at h
      simp [jsOrElse, h]

/-- C10: the rates operation is deterministic up to its time fallback —
the status and the date-stripped body of the response do not depend on
the current time; when the upstream payload carries a non-falsy
`time_last_update_utc` the whole outcome is time-independent; the whole
outcome is independent of the value of the API key whenever the key is
present and non-empty; and the only outbound request ever made is the GET
to `apiUrlFor baseCurrency` with the `Accept: application/json` header, a
function of the base currency alone in which the key does not occur. -/
theorem c10_idempotent_key_independent :
    (∀ (apiKey : Option String) (b : String) (u : UpstreamResult) (t1 t2 : String),
        stripDate (ratesHandler apiKey b u t1).response.body =
          stripDate (ratesHandler apiKey b u t2).response.body ∧
        (ratesHandler apiKey b u t1).response.status =
          (ratesHandler apiKey b u t2).response.status) ∧
    (∀ (apiKey : Option String) (b : String) (r : UpstreamHttpResponse)
        (data : UpstreamPayload) (t1 t2 : String),
        r.jsonBody = .ok data → strFalsy data.time_last_update_utc = false →
        ratesHandler apiKey b (.response r) t1 = ratesHandler apiKey b (.response r) t2) ∧
    (∀ (k1 k2 : Option String) (b : String) (u : UpstreamResult) (t : String),
        strFalsy k1 = false → strFalsy k2 = false →
        ratesHandler k1 b u t = ratesHandler k2 b u t) ∧
    (∀ (apiKey : Option String) (b : String) (u : UpstreamResult) (t : String),
        (ratesHandler apiKey b u t).request = none ∨
        (ratesHandler apiKey b u t).request = some (outboundFor b)) := by
  refine ⟨?_, ?_, ?_, ?_⟩
  · intro apiKey b u t1 t2
    unfold ratesHandler
    by_cases hv : b = "" ∨ b.length ≠ 3
    · rw [if_pos hv, if_pos hv]
      exact ⟨rfl, rfl⟩
    · rw [if_neg hv, if_neg hv]
      unfold ratesAfterValidation
      cases hk : strFalsy apiKey with
      | true => simp [hk]
      | false =>
          simp only [hk, Bool.false_eq_true, if_false]
          cases u with
          | transportError msg => exact ⟨rfl, rfl⟩
          | response r =>
              by_cases hok : 200 ≤ r.status ∧ r.status ≤ 299
              · simp only [if_pos hok]
                cases hj : r.jsonBody with
                | error msg => exact ⟨rfl, rfl⟩
                | ok data =>
                    by_cases hres : data.result = some "error"
                    · simp only [if_pos hres]
                      exact ⟨trivial, trivial⟩
                    · simp only [if_neg hres]
                      cases hr : data.rates with
                      | none => exact ⟨rfl, rfl⟩
                      | some rs => exact ⟨rfl, rfl⟩
              · simp only [if_neg hok]
                exact ⟨trivial, trivial⟩
  · intro apiKey b r data t1 t2 hjson htime
    unfold ratesHandler
    by_cases hv : b = "" ∨ b.length ≠ 3
    · rw [if_pos hv, if_pos hv]
    · rw [if_neg hv, if_neg hv]
      unfold ratesAfterValidation
      cases hk : strFalsy apiKey with
      | true => simp [hk]
      | false =>
          simp only [hk, Bool.false_eq_true, if_false]
          by_cases hok : 200 ≤ r.status ∧ r.status ≤ 299
          · simp only [if_pos hok, hjson]
            by_cases hres : data.result = some "error"
            · simp only [if_pos hres]
            · simp only [if_neg hres]
              cases hr : data.rates with
              | none => rfl
              | some rs =>
                  simp only
                  rw [jsOrElse_indep data.time_last_update_utc t1 t2 htime]
          · simp only [if_neg hok]
  · intro k1 k2 b u t hk1 hk2
    unfold ratesHandler
    by_cases hv : b = "" ∨ b.length ≠ 3
    · rw [if_pos hv, if_pos hv]
    · rw [if_neg hv, if_neg hv]
      unfold ratesAfterValidation
      simp only [hk1, hk2, Bool.false_eq_true, if_false]
  · intro apiKey b u t
    unfold ratesHandler
    split
    · exact Or.inl rfl
    · unfold ratesAfterValidation
      repeat' split
      all_goals simp

/-- Witness for `c10_idempotent_key_independent`: at two concrete times
the responses agree up to the date; with the example upstream carrying a
last-update field the outcomes agree exactly; and two different concrete
non-empty keys give identical outcomes. -/
theorem c10_idempotent_key_independent_witness :
    (stripDate (ratesHandler (some "k") "USD" usdOkUpstream "t1").response.body =
      stripDate (ratesHandler (some "k") "USD" usdOkUpstream "t2").response.body) ∧
    (ratesHandler (some "k") "USD"
        (.response { status := 200, statusText := "OK"
                     jsonBody := .ok { usdPayload with
                                       time_last_update_utc := some "Mon, 05 Jan 2026" } }) "t1" =
      ratesHandler (some "k") "USD"
        (.response { status := 200, statusText := "OK"
                     jsonBody := .ok { usdPayload with
                                       time_last_update_utc := some "Mon, 05 Jan 2026" } }) "t2") ∧
    ratesHandler (some "key-one") "USD" usdOkUpstream "t" =
      ratesHandler (some "key-two") "USD" usdOkUpstream "t" :=
  ⟨(c10_idempotent_key_independent.1 (some "k") "USD" usdOkUpstream "t1" "t2").1,
   c10_idempotent_key_independent.2.1 (some "k") "USD"
     { status := 200, statusText := "OK"
       jsonBody := .ok { usdPayload with time_last_update_utc := some "Mon, 05 Jan 2026" } }
     { usdPayload with time_last_update_utc := some "Mon, 05 Jan 2026" }
     "t1" "t2" (by rfl) (by decide),
   c10_idempotent_key_independent.2.2.1 (some "key-one") (some "key-two") "USD"
     usdOkUpstream "t" (by rfl) (by rfl)⟩

end CurrencyProxy
